import Mathlib

/-!
Verification of the HR leave-request agent workflow (lab3-code).

The Python sources embedded here are `agent_state.py` (the `AgentState`
schema), `agent_nodes.py` (the privacy entry router, the Langflow call
node, the approval-check node, the human-approval gate and the finalize
node) and `hr_agent_graph.py` (the graph wiring).  The LangGraph executor
itself and its state-merge behaviour are library code outside the
repository; they are modelled from the specification where noted.
-/

namespace HRAgent

/-- A chat message as stored in the `messages` channel.  The nodes only
ever read the `content` attribute of the latest message. -/
structure Message where
  role : String
  content : String
deriving DecidableEq

/-- From `agent_state.py`, class `AgentState`: the shared state schema.
`messages` is the accumulating field (annotated with `add_messages`);
every other field is last-write-wins.  Optional fields are `Option`;
`requires_approval` is a plain boolean (initialised to `False`). -/
structure AgentState where
  messages : List Message
  current_user_name : Option String
  employee_id : Option String
  leave_type : Option String
  start_date : Option String
  end_date : Option String
  days_requested : Option Int
  leave_balance : Option Int
  requires_approval : Bool
  approval_status : Option String
  approval_reason : Option String
  agent_response : Option String
  error : Option String
deriving DecidableEq

/-- A sparse update as returned by a node: `none` means the key is absent
from the returned dict, `some v` means the node set the key to `v`.
`messages` entries are appended, never overwritten. -/
structure StateUpdate where
  messages : List Message := []
  current_user_name : Option String := none
  employee_id : Option String := none
  leave_type : Option String := none
  start_date : Option String := none
  end_date : Option String := none
  days_requested : Option Int := none
  leave_balance : Option Int := none
  requires_approval : Option Bool := none
  approval_status : Option String := none
  approval_reason : Option String := none
  agent_response : Option String := none
  error : Option String := none
deriving DecidableEq

/-- Last-write-wins for a single optional field: a key present in the
update overwrites the base, an absent key leaves the base untouched. -/
def overwrite (base upd : Option α) : Option α :=
  match upd with
  | some v => some v
  | none => base

/-- Modelled from the spec: the state-merge contract of the graph engine
(LangGraph library code, not part of this repository).  Each key present
in the sparse update overwrites the corresponding key of the base state,
except the accumulating `messages` field, whose entries are concatenated
in arrival order. -/
def applyUpdate (st : AgentState) (u : StateUpdate) : AgentState where
  messages := st.messages ++ u.messages
  current_user_name := overwrite st.current_user_name u.current_user_name
  employee_id := overwrite st.employee_id u.employee_id
  leave_type := overwrite st.leave_type u.leave_type
  start_date := overwrite st.start_date u.start_date
  end_date := overwrite st.end_date u.end_date
  days_requested := overwrite st.days_requested u.days_requested
  leave_balance := overwrite st.leave_balance u.leave_balance
  requires_approval := u.requires_approval.getD st.requires_approval
  approval_status := overwrite st.approval_status u.approval_status
  approval_reason := overwrite st.approval_reason u.approval_reason
  agent_response := overwrite st.agent_response u.agent_response
  error := overwrite st.error u.error

/-- Python truthiness of an optional integer: `None` and `0` are falsy. -/
def intTruthy : Option Int → Bool
  | none => false
  | some n => n != 0

/-- Python truthiness of an optional string: `None` and `""` are falsy. -/
def strTruthy : Option String → Bool
  | none => false
  | some s => s != ""

/-- Python rendering of an optional string inside an f-string when the
key is present in the dict: `None` prints as `None`. -/
def pyShowStr : Option String → String
  | none => "None"
  | some s => s

/-- Python rendering of an optional integer inside an f-string. -/
def pyShowInt : Option Int → String
  | none => "None"
  | some n => toString n

/-- From `agent_nodes.py`, `check_approval_node` (lines 110-127): reads
`days_requested` (default 0), compares against the configured threshold
with Python truthiness guarding the comparison, and returns the approval
flag and status.  The threshold (`APPROVAL_THRESHOLD_DAYS`, default 5)
is a parameter. -/
def check_approval_node (threshold : Int) (st : AgentState) : StateUpdate :=
  if intTruthy st.days_requested ∧ st.days_requested.getD 0 > threshold then
    { requires_approval := some true, approval_status := some "pending" }
  else
    { requires_approval := some false, approval_status := some "auto_approved" }

/-- From `agent_nodes.py`, `should_require_approval` (lines 215-227): the
conditional edge function after `check_approval`. -/
def should_require_approval (st : AgentState) : String :=
  if st.requires_approval then "human_approval" else "finalize"

/-- The generic apology produced when the Langflow call raises. -/
def apologyText : String := "I encountered an error processing your request."

/-- The finalize response when an error field is present (from
`finalize_node` lines 204-210). -/
def errorText (e : String) : String :=
  "Error: " ++ e ++ ". Please try again or contact support."

/-- The finalize response on the auto-approved branch (from
`finalize_node` lines 195-201). -/
def autoText (prev : String) : String :=
  prev ++ " Your request has been automatically approved."

/-- From `agent_nodes.py`, `finalize_node` (lines 184-212): if the
request was auto-approved and a truthy day count is present, append the
automatic-approval sentence to the response; otherwise, if a truthy
error is present, replace the response with the error message; otherwise
return the empty update. -/
def finalize_node (st : AgentState) : StateUpdate :=
  if st.approval_status == some "auto_approved" && intTruthy st.days_requested then
    { agent_response := some (autoText (pyShowStr st.agent_response)) }
  else if strTruthy st.error then
    { agent_response := some (errorText (st.error.getD "")) }
  else
    {}

/-- Python regex `\s`: space, tab, newline, carriage return, vertical
tab, form feed. -/
def pySpace (c : Char) : Bool :=
  c = ' ' || c = Char.ofNat 9 || c = Char.ofNat 10 || c = Char.ofNat 13 ||
  c = Char.ofNat 11 || c = Char.ofNat 12

/-- Regex character class `[A-Z]`. -/
def upperAZ (c : Char) : Bool := 'A' ≤ c && c ≤ 'Z'

/-- Regex character class `[a-z]`. -/
def lowerAZ (c : Char) : Bool := 'a' ≤ c && c ≤ 'z'

/-- Match the regex fragment `[A-Z][a-z]+` at the head of the input,
returning the matched characters and the remaining input.  The greedy
`[a-z]+` takes the maximal lowercase run; in every pattern of
`check_privacy_access` the following regex token can never consume a
lowercase letter, so maximal munch is exact. -/
def matchWord : List Char → Option (List Char × List Char)
  | [] => none
  | c :: rest =>
    if upperAZ c then
      let lows := rest.takeWhile lowerAZ
      if lows = [] then none else some (c :: lows, rest.dropWhile lowerAZ)
    else none

/-- Match the regex fragment `\s+` at the head of the input (greedy;
exact because the following token is never a whitespace character). -/
def matchSpaces : List Char → Option (List Char × List Char)
  | cs =>
    let sp := cs.takeWhile pySpace
    if sp = [] then none else some (sp, cs.dropWhile pySpace)

/-- Match a literal character sequence at the head of the input. -/
def matchLit : List Char → List Char → Option (List Char)
  | [], cs => some cs
  | _ :: _, [] => none
  | l :: ls, c :: cs => if c = l then matchLit ls cs else none

/-- Match the capture group `[A-Z][a-z]+(?:\s+[A-Z][a-z]+)?` taking the
two-word alternative (the optional group present).  The captured text
includes the whitespace between the two words, as in Python. -/
def matchNameTwo (cs : List Char) : Option (List Char × List Char) :=
  match matchWord cs with
  | none => none
  | some (w1, r1) =>
    match matchSpaces r1 with
    | none => none
    | some (sp, r2) =>
      match matchWord r2 with
      | none => none
      | some (w2, r3) => some (w1 ++ sp ++ w2, r3)

/-- Match the capture group `[A-Z][a-z]+(?:\s+[A-Z][a-z]+)?` greedily
with nothing required after it (patterns 1 and 2): prefer the two-word
form, fall back to the single word. -/
def matchName (cs : List Char) : Option (List Char × List Char) :=
  match matchNameTwo cs with
  | some res => some res
  | none => matchWord cs

/-- Pattern 1 of `check_privacy_access`:
`for\s+([A-Z][a-z]+(?:\s+[A-Z][a-z]+)?)`, matched at the head of the
input; returns the capture and the input after the whole match. -/
def matchForPat (cs : List Char) : Option (List Char × List Char) :=
  match matchLit ['f', 'o', 'r'] cs with
  | none => none
  | some r1 =>
    match matchSpaces r1 with
    | none => none
    | some (_, r2) => matchName r2

/-- Pattern 2 of `check_privacy_access`:
`employee\s+([A-Z][a-z]+(?:\s+[A-Z][a-z]+)?)`. -/
def matchEmployeePat (cs : List Char) : Option (List Char × List Char) :=
  match matchLit ['e', 'm', 'p', 'l', 'o', 'y', 'e', 'e'] cs with
  | none => none
  | some r1 =>
    match matchSpaces r1 with
    | none => none
    | some (_, r2) => matchName r2

/-- The suffix of pattern 3 after the capture group: an apostrophe, the
letter s, whitespace, then the literal `leave`. -/
def matchPossSuffix (cs : List Char) : Option (List Char) :=
  match matchLit [Char.ofNat 39, 's'] cs with
  | none => none
  | some r1 =>
    match matchSpaces r1 with
    | none => none
    | some (_, r2) => matchLit ['l', 'e', 'a', 'v', 'e'] r2

/-- Pattern 3 of `check_privacy_access`:
`([A-Z][a-z]+(?:\s+[A-Z][a-z]+)?)` followed by the possessive-leave
suffix.  The regex engine backtracks over the optional second word, so
the two-word capture is tried first and the one-word capture second. -/
def matchPossPat (cs : List Char) : Option (List Char × List Char) :=
  match matchNameTwo cs with
  | some (cap, r) =>
    match matchPossSuffix r with
    | some r2 => some (cap, r2)
    | none =>
      match matchWord cs with
      | some (cap1, r1) =>
        match matchPossSuffix r1 with
        | some r2 => some (cap1, r2)
        | none => none
      | none => none
  | none =>
    match matchWord cs with
    | some (cap1, r1) =>
      match matchPossSuffix r1 with
      | some r2 => some (cap1, r2)
      | none => none
    | none => none

/-- The scan loop of `re.findall`: try the pattern at each position from
left to right; on a match, record the capture and resume after the end
of the whole match (matches never overlap).  The fuel argument bounds
the recursion; every pattern consumes at least one character, so fuel
equal to the input length is exact. -/
def scanPat (f : List Char → Option (List Char × List Char)) :
    Nat → List Char → List String
  | 0, _ => []
  | _, [] => []
  | fuel + 1, c :: rest =>
    match f (c :: rest) with
    | some (cap, after) => String.mk cap :: scanPat f fuel after
    | none => scanPat f fuel rest

/-- All capture groups produced by the three patterns of
`check_privacy_access` (lines 38-45 of `agent_nodes.py`), in the order
the Python loop visits them: all matches of pattern 1, then all matches
of pattern 2, then all matches of pattern 3. -/
def findAllNames (msg : String) : List String :=
  scanPat matchForPat msg.data.length msg.data ++
  scanPat matchEmployeePat msg.data.length msg.data ++
  scanPat matchPossPat msg.data.length msg.data

/-- The denial message assembled at lines 48-51 of `agent_nodes.py`. -/
def deniedText (name : String) : String :=
  "Access denied. You can only access your own leave information, " ++
  "not data for employee " ++ name ++ "."

/-- Python `str.lower()` on a single character (ASCII range, which is
all the name patterns can capture). -/
def pyLowerChar (c : Char) : Char :=
  if upperAZ c then Char.ofNat (c.toNat + 32) else c

/-- Python `str.lower()`. -/
def pyLower (s : String) : String := String.mk (s.data.map pyLowerChar)

/-- Python `str.strip()`: drop leading and trailing whitespace. -/
def pyStrip (s : String) : String :=
  String.mk (((s.data.dropWhile pySpace).reverse.dropWhile pySpace).reverse)

/-- The condition of line 47 of `agent_nodes.py` for a captured name:
the current user name is truthy and differs case-insensitively from the
captured name. -/
def offending (user : Option String) (n : String) : Bool :=
  strTruthy user && pyLower n != pyLower (user.getD "")

/-- From `agent_nodes.py`, `check_privacy_access` (lines 17-56): the
conditional entry router.  With no messages it proceeds; otherwise it
scans the latest message content with the three name patterns and, at
the first captured name that is offending, writes the denial response
and the error marker into the state and returns `denied`; with no
offending name it returns `proceed` with the state untouched.  The
second component is the state as left by the router. -/
def check_privacy_access (st : AgentState) : String × AgentState :=
  match st.messages.getLast? with
  | none => ("proceed", st)
  | some m =>
    match (findAllNames m.content).find? (offending st.current_user_name) with
    | some n =>
      ("denied",
        { st with
            agent_response := some (deniedText n)
            error := some "Unauthorized access attempt" })
    | none => ("proceed", st)

/-- The structured payload nested under `data` in a parsed Langflow
response (see `langflow_client.py`): every field may be absent. -/
structure LangflowData where
  employee_id : Option String := none
  employee_name : Option String := none
  leave_balance : Option Int := none
  leave_type : Option String := none
  start_date : Option String := none
  end_date : Option String := none
  days_requested : Option Int := none
deriving DecidableEq

/-- The dictionary returned by `LangflowClient.query`: a conversational
reply, a query flag (read with default `True`) and an optional data
payload. -/
structure QueryResponse where
  conversational_response : Option String := none
  query_flag : Option Bool := none
  data : Option LangflowData := none
deriving DecidableEq

/-- A string field of the payload is copied into the update only when it
is truthy (lines 87-98 of `agent_nodes.py` use plain truthiness). -/
def keepIfTruthy (v : Option String) : Option String :=
  if strTruthy v then v else none

/-- From `agent_nodes.py`, `call_langflow_node` (lines 58-107).  The
outcome of `langflow_client.query` is a parameter: `Except.error e`
stands for a raised exception whose string rendering is `e`, and
`Except.ok resp` for a returned response dictionary.  With no messages
the node returns only an error; on an exception it returns the error
string plus the generic apology; on success it always sets the
conversational response and, when the query flag is false and a data
payload is present, copies the truthy payload fields (the two integer
fields are guarded by `is not None` instead of truthiness). -/
def call_langflow_node (lf : Except String QueryResponse)
    (st : AgentState) : StateUpdate :=
  match st.messages with
  | [] => { error := some "No messages to process" }
  | _ :: _ =>
    match lf with
    | Except.error e => { error := some e, agent_response := some apologyText }
    | Except.ok resp =>
      if resp.query_flag.getD true = false ∧ resp.data.isSome then
        let d := resp.data.getD {}
        { agent_response := some (resp.conversational_response.getD "No response")
          employee_id := keepIfTruthy d.employee_id
          current_user_name := keepIfTruthy d.employee_name
          leave_balance := d.leave_balance
          leave_type := keepIfTruthy d.leave_type
          start_date := keepIfTruthy d.start_date
          end_date := keepIfTruthy d.end_date
          days_requested := d.days_requested }
      else
        { agent_response := some (resp.conversational_response.getD "No response") }

/-- A console line is a canonical decision once stripped and lowered
(line 154 of `agent_nodes.py`). -/
def isCanonical (l : String) : Bool :=
  pyLower (pyStrip l) == "yes" || pyLower (pyStrip l) == "no"

/-- The update assembled by `human_approval_node` (lines 160-181) from
the canonical decision (already stripped and lowered) and the stripped
reason line. -/
def mkHumanUpdate (st : AgentState) (decision reasonRaw : String) : StateUpdate :=
  let status := if decision == "yes" then "approved" else "rejected"
  let reason := if reasonRaw == "" then "No reason provided" else reasonRaw
  let verdict := if status == "approved" then "approved" else "rejected"
  { approval_status := some status
    approval_reason := some reason
    agent_response := some
      ("Your leave request for " ++ pyShowInt st.days_requested ++
        " days has been " ++ verdict ++ ". Reason: " ++ reason) }

/-- From `agent_nodes.py`, `human_approval_node` (lines 130-181).  The
console input is a parameter: the list of lines the operator types.  The
while loop consumes lines until one is canonical after strip and lower;
the following line is the free-text reason.  `none` models the node
still blocked on input: the line list was exhausted without a canonical
decision (or without a reason line after it). -/
def human_approval_node (st : AgentState) : List String → Option StateUpdate
  | [] => none
  | l :: rest =>
    if isCanonical l then
      match rest with
      | [] => none
      | r :: _ => some (mkHumanUpdate st (pyLower (pyStrip l)) (pyStrip r))
    else human_approval_node st rest

/-- Modelled from the spec: the executor walk over the business path of
the compiled graph of `hr_agent_graph.py` — `call_langflow`, then
`check_approval`, then either `human_approval` and `finalize` or
`finalize` directly, each sparse update merged into the running state
(§4.4 of the spec; the executor is LangGraph library code).  Returns
the list of executed node names and the final state, or `none` when the
run is still blocked inside the human gate. -/
def runBusiness (lf : Except String QueryResponse) (threshold : Int)
    (inputs : List String) (st : AgentState) :
    Option (List String × AgentState) :=
  let s2 := applyUpdate st (call_langflow_node lf st)
  let s3 := applyUpdate s2 (check_approval_node threshold s2)
  if should_require_approval s3 = "human_approval" then
    match human_approval_node s3 inputs with
    | none => none
    | some u =>
      let s4 := applyUpdate s3 u
      some (["call_langflow", "check_approval", "human_approval", "finalize"],
        applyUpdate s4 (finalize_node s4))
  else
    some (["call_langflow", "check_approval", "finalize"],
      applyUpdate s3 (finalize_node s3))

/-- Modelled from the spec: the full executor walk of the compiled graph
(`create_agent_graph` in `hr_agent_graph.py`).  The conditional entry
point evaluates `check_privacy_access` on the initial state; the label
`denied` routes straight to `finalize`, the label `proceed` routes to
the business path.  Returns the executed node names (the entry router is
not a node) and the final state. -/
def runGraph (lf : Except String QueryResponse) (threshold : Int)
    (inputs : List String) (st : AgentState) :
    Option (List String × AgentState) :=
  match check_privacy_access st with
  | (label, s1) =>
    if label = "denied" then
      some (["finalize"], applyUpdate s1 (finalize_node s1))
    else
      runBusiness lf threshold inputs s1

/-- The content of the latest message, as read by the privacy router
(empty when there is no message, in which case the router proceeds
without reading it). -/
def latestContent (st : AgentState) : String :=
  match st.messages.getLast? with
  | none => ""
  | some m => m.content

/-- A state with every optional field unset, as `main.py` initialises
the non-message fields. -/
def emptyState : AgentState where
  messages := []
  current_user_name := none
  employee_id := none
  leave_type := none
  start_date := none
  end_date := none
  days_requested := none
  leave_balance := none
  requires_approval := false
  approval_status := none
  approval_reason := none
  agent_response := none
  error := none

/-- The scenario of claim C1: the acting principal is Alice and the
message asks about Bob. -/
def denialInit : AgentState :=
  { emptyState with
      messages := [{ role := "user", content := "Can you show the leave balance for Bob?" }]
      current_user_name := some "Alice" }

/-- A state whose message mentions only the acting principal herself. -/
def ownDataState : AgentState :=
  { emptyState with
      messages := [{ role := "user", content := "What is the leave balance for Alice?" }]
      current_user_name := some "Alice" }

/-- A state with third-party names in the message but no authenticated
user name. -/
def noUserState : AgentState :=
  { emptyState with
      messages := [{ role := "user", content := "Show the leave for Bob and employee Carol Jones" }] }

/-- An auto-approved state that also carries an error, for the
finalize-precedence scenario. -/
def autoErrState : AgentState :=
  { emptyState with
      approval_status := some "auto_approved"
      days_requested := some 3
      error := some "boom"
      agent_response := some "Balance is 12 days." }

/-- A state with one message, used to exercise the Langflow failure
path. -/
def oneMsgState : AgentState :=
  { emptyState with
      messages := [{ role := "user", content := "I want 6 days of vacation" }] }

end HRAgent

namespace HRAgent

/-- Restatement of `overwrite` in the form used by the merge contract. -/
theorem overwrite_eq (b u : Option α) :
    overwrite b u = if u.isSome then u else b := by
  cases u <;> rfl

/-- A string append is non-empty when its right part is. -/
theorem append_ne_empty_right (s t : String) (h : t ≠ "") : s ++ t ≠ "" := by
  cases s with
  | mk a =>
    cases t with
    | mk b =>
      intro he
      have hb : a ++ b = ([] : List Char) := congrArg String.data he
      rcases List.append_eq_nil.mp hb with ⟨-, hb2⟩
      exact h (congrArg String.mk hb2)

/-- A string append is non-empty when its left part is. -/
theorem append_ne_empty_left (s t : String) (h : s ≠ "") : s ++ t ≠ "" := by
  cases s with
  | mk a =>
    cases t with
    | mk b =>
      intro he
      have hb : a ++ b = ([] : List Char) := congrArg String.data he
      rcases List.append_eq_nil.mp hb with ⟨hb1, -⟩
      exact h (congrArg String.mk hb1)

/-- Outcome of `check_approval_node` when the truthy day count exceeds the
threshold. -/
theorem check_approval_pos (t : Int) (s : AgentState)
    (h : intTruthy s.days_requested = true ∧ s.days_requested.getD 0 > t) :
    check_approval_node t s =
      { requires_approval := some true, approval_status := some "pending" } := by
  simp [check_approval_node, h]

/-- Outcome of `check_approval_node` when the day count is falsy or does not exceed
the threshold. -/
theorem check_approval_neg (t : Int) (s : AgentState)
    (h : ¬(intTruthy s.days_requested = true ∧ s.days_requested.getD 0 > t)) :
    check_approval_node t s =
      { requires_approval := some false, approval_status := some "auto_approved" } := by
  simp only [check_approval_node]
  rw [if_neg h]

/-- The human gate on a canonical decision line followed by a reason
line. -/
theorem human_accepts (st : AgentState) (d r : String) (rest : List String)
    (hd : isCanonical d = true) :
    human_approval_node st (d :: r :: rest) =
      some (mkHumanUpdate st (pyLower (pyStrip d)) (pyStrip r)) := by
  simp [human_approval_node, hd]

/-- The response set by the human gate is never the empty string. -/
theorem human_response_nonempty (st : AgentState) (dec reason : String) :
    (mkHumanUpdate st dec reason).agent_response.getD "" ≠ "" := by
  unfold mkHumanUpdate
  exact append_ne_empty_left _ _ (append_ne_empty_right _ _ (by decide))

/-- Merging the finalize update into a state whose response is a
non-empty string leaves a non-empty response: each finalize branch
either appends to a non-empty sentence, writes the error sentence, or
leaves the response alone. -/
theorem finalize_response_nonempty (s : AgentState)
    (h : s.agent_response.getD "" ≠ "") :
    (applyUpdate s (finalize_node s)).agent_response.getD "" ≠ "" := by
  unfold finalize_node
  split
  · simpa [applyUpdate, overwrite, autoText] using
      append_ne_empty_right (pyShowStr s.agent_response)
        " Your request has been automatically approved." (by decide)
  · split
    · simpa [applyUpdate, overwrite, errorText] using
        append_ne_empty_right ("Error: " ++ s.error.getD "")
          ". Please try again or contact support." (by decide)
    · simpa [applyUpdate, overwrite] using h

/-- Claim C3: the merge contract of the state container.  For every
state `S` and sparse update `P`, every key present in `P` (other than
the accumulating `messages` field) is mapped to its value in `P`, every
key absent from `P` is mapped to its value in `S`, and `messages` is
mapped to the concatenation of the two message lists in arrival order
with nothing dropped. -/
theorem merge_contract (S : AgentState) (P : StateUpdate) :
    (applyUpdate S P).messages = S.messages ++ P.messages ∧
    (applyUpdate S P).current_user_name =
      (if P.current_user_name.isSome then P.current_user_name else S.current_user_name) ∧
    (applyUpdate S P).employee_id =
      (if P.employee_id.isSome then P.employee_id else S.employee_id) ∧
    (applyUpdate S P).leave_type =
      (if P.leave_type.isSome then P.leave_type else S.leave_type) ∧
    (applyUpdate S P).start_date =
      (if P.start_date.isSome then P.start_date else S.start_date) ∧
    (applyUpdate S P).end_date =
      (if P.end_date.isSome then P.end_date else S.end_date) ∧
    (applyUpdate S P).days_requested =
      (if P.days_requested.isSome then P.days_requested else S.days_requested) ∧
    (applyUpdate S P).leave_balance =
      (if P.leave_balance.isSome then P.leave_balance else S.leave_balance) ∧
    (applyUpdate S P).requires_approval =
      (if P.requires_approval.isSome then P.requires_approval.getD S.requires_approval
       else S.requires_approval) ∧
    (applyUpdate S P).approval_status =
      (if P.approval_status.isSome then P.approval_status else S.approval_status) ∧
    (applyUpdate S P).approval_reason =
      (if P.approval_reason.isSome then P.approval_reason else S.approval_reason) ∧
    (applyUpdate S P).agent_response =
      (if P.agent_response.isSome then P.agent_response else S.agent_response) ∧
    (applyUpdate S P).error = (if P.error.isSome then P.error else S.error) := by
  refine ⟨rfl, ?_, ?_, ?_, ?_, ?_, ?_, ?_, ?_, ?_, ?_, ?_, ?_⟩ <;>
    simp only [applyUpdate, overwrite_eq]
  cases P.requires_approval <;> rfl

/-- Claim C4: after `check_approval_node` runs and its update is merged,
the conditional router `should_require_approval` returns
`human_approval` exactly when `requires_approval` is true and `finalize`
exactly when it is false; and the merged `requires_approval` flag is
true exactly when the state carries a truthy day count strictly above
the threshold. -/
theorem approval_routing (st : AgentState) (t : Int) :
    (should_require_approval (applyUpdate st (check_approval_node t st)) = "human_approval"
      ↔ (applyUpdate st (check_approval_node t st)).requires_approval = true) ∧
    (should_require_approval (applyUpdate st (check_approval_node t st)) = "finalize"
      ↔ (applyUpdate st (check_approval_node t st)).requires_approval = false) ∧
    ((applyUpdate st (check_approval_node t st)).requires_approval = true
      ↔ (intTruthy st.days_requested = true ∧ st.days_requested.getD 0 > t)) := by
  by_cases h : intTruthy st.days_requested = true ∧ st.days_requested.getD 0 > t
  · simp [check_approval_node, if_pos h, applyUpdate, should_require_approval, h]
  · simp [check_approval_node, if_neg h, applyUpdate, should_require_approval, h]

/-- Claim C10: a state whose `days_requested` is `None`, `0` or absent
is always classified auto-approved by `check_approval_node`, whatever
the configured threshold. -/
theorem no_day_count_auto_approved (st : AgentState) (t : Int)
    (h : st.days_requested = none ∨ st.days_requested = some 0) :
    check_approval_node t st =
      { requires_approval := some false, approval_status := some "auto_approved" } := by
  rcases h with h | h <;> simp [check_approval_node, intTruthy, h]

/-- Witness for claim C10 at a concrete state with no day count. -/
theorem no_day_count_auto_approved_witness :
    check_approval_node 5 emptyState =
      { requires_approval := some false, approval_status := some "auto_approved" } :=
  no_day_count_auto_approved emptyState 5 (Or.inl rfl)

/-- Claim C9: in `finalize_node` the auto-approval branch takes
precedence: with `approval_status = auto_approved` and a truthy
`days_requested`, the update appends the automatic-approval sentence to
the response, whether or not an error field is set, and the error
apology is not produced. -/
theorem finalize_auto_precedence (st : AgentState)
    (h1 : st.approval_status = some "auto_approved")
    (h2 : intTruthy st.days_requested = true) :
    finalize_node st =
      { agent_response := some (autoText (pyShowStr st.agent_response)) } := by
  simp [finalize_node, h1, h2]

/-- Witness for claim C9 at a concrete state whose error field is set:
the auto-approval sentence wins and the error apology is absent. -/
theorem finalize_auto_precedence_witness :
    finalize_node autoErrState =
      { agent_response := some (autoText "Balance is 12 days.") } :=
  finalize_auto_precedence autoErrState rfl rfl

/-- Counterexample to claim C2 as stated: with threshold `-1` (the
threshold is read from the environment and can be any integer) a
request of `threshold + 1 = 0` days is falsy in Python, so the node
auto-approves it instead of returning `requires_approval = true`. -/
theorem approval_boundary_cex :
    (check_approval_node (-1)
        { emptyState with days_requested := some (-1 + 1) }).requires_approval
      = some false ∧
    (check_approval_node (-1)
        { emptyState with days_requested := some (-1 + 1) }).approval_status
      = some "auto_approved" := by
  constructor <;> rfl

/-- Claim C2 (amended: for thresholds other than `-1`): a request of
exactly the threshold is auto-approved, a request of one more day is
marked pending with `requires_approval = true`, and the router then
sends the run to the human gate. -/
theorem approval_boundary (st : AgentState) (t : Int) (h : t ≠ -1) :
    check_approval_node t { st with days_requested := some t } =
      { requires_approval := some false, approval_status := some "auto_approved" } ∧
    check_approval_node t { st with days_requested := some (t + 1) } =
      { requires_approval := some true, approval_status := some "pending" } ∧
    should_require_approval
      (applyUpdate { st with days_requested := some (t + 1) }
        (check_approval_node t { st with days_requested := some (t + 1) })) =
      "human_approval" := by
  have hne : t + 1 ≠ 0 := by omega
  have hgt : t + 1 > t := by omega
  refine ⟨?_, ?_, ?_⟩
  · simp [check_approval_node, intTruthy]
  · simp [check_approval_node, intTruthy, hne, hgt]
  · simp [check_approval_node, intTruthy, hne, hgt, applyUpdate, should_require_approval]

/-- Witness for the amended claim C2 at threshold 5: 5 days are
auto-approved, 6 days are pending and routed to the human gate. -/
theorem approval_boundary_witness :
    check_approval_node 5 { emptyState with days_requested := some 5 } =
      { requires_approval := some false, approval_status := some "auto_approved" } ∧
    check_approval_node 5 { emptyState with days_requested := some 6 } =
      { requires_approval := some true, approval_status := some "pending" } ∧
    should_require_approval
      (applyUpdate { emptyState with days_requested := some 6 }
        (check_approval_node 5 { emptyState with days_requested := some 6 })) =
      "human_approval" :=
  approval_boundary emptyState 5 (by decide)

/-- Claim C7: when every name the three patterns extract from the
latest message equals the own name of the acting principal case-insensitively
(in particular when no name is extracted at all), the entry router
returns `proceed` and leaves every field of the state unchanged. -/
theorem privacy_proceed_no_mutation (st : AgentState)
    (h : ∀ n ∈ findAllNames (latestContent st),
        pyLower n = pyLower (st.current_user_name.getD "")) :
    check_privacy_access st = ("proceed", st) := by
  cases hm : st.messages.getLast? with
  | none => simp [check_privacy_access, hm]
  | some m =>
    have hf : (findAllNames m.content).find? (offending st.current_user_name) = none := by
      apply List.find?_eq_none.mpr
      intro n hn
      have hn2 : pyLower n = pyLower (st.current_user_name.getD "") := by
        apply h
        simpa [latestContent, hm] using hn
      simp [offending, hn2]
    simp [check_privacy_access, hm, hf]

/-- Witness for claim C7: Alice asking about her own balance passes
through with the state untouched. -/
theorem privacy_proceed_no_mutation_witness :
    check_privacy_access ownDataState = ("proceed", ownDataState) :=
  privacy_proceed_no_mutation ownDataState (by decide)

/-- Claim C8: with `current_user_name` equal to `None` or the empty
string, the privacy gate proceeds for every possible message content and
never mutates the state, however many third-party names the message
mentions. -/
theorem privacy_unknown_user_proceeds (st : AgentState)
    (h : st.current_user_name = none ∨ st.current_user_name = some "") :
    check_privacy_access st = ("proceed", st) := by
  cases hm : st.messages.getLast? with
  | none => simp [check_privacy_access, hm]
  | some m =>
    have hf : (findAllNames m.content).find? (offending st.current_user_name) = none := by
      apply List.find?_eq_none.mpr
      intro n _
      rcases h with h | h <;> simp [offending, strTruthy, h]
    simp [check_privacy_access, hm, hf]

/-- Witness for claim C8: a message naming Bob and Carol Jones proceeds
untouched because no user name is set. -/
theorem privacy_unknown_user_proceeds_witness :
    check_privacy_access noUserState = ("proceed", noUserState) :=
  privacy_unknown_user_proceeds noUserState (Or.inl rfl)

/-- Claim C5: the human gate accepts exactly the canonical tokens.  If
no line of the input is canonical the gate never returns (re-prompting
forever); a prefix of non-canonical lines is skipped without being
accepted, defaulted or coerced; a canonical decision line followed by a
reason line produces exactly the update built from the stripped,
lowered decision; and in that update `approval_status` is `approved`
exactly when the decision was `yes`, `rejected` exactly when it was
`no`, with a derived natural-language response always present. -/
theorem human_gate_canonical :
    (∀ st inputs, (∀ l ∈ inputs, isCanonical l = false) →
      human_approval_node st inputs = none) ∧
    (∀ st pre rest, (∀ l ∈ pre, isCanonical l = false) →
      human_approval_node st (pre ++ rest) = human_approval_node st rest) ∧
    (∀ st d r rest, isCanonical d = true →
      human_approval_node st (d :: r :: rest) =
        some (mkHumanUpdate st (pyLower (pyStrip d)) (pyStrip r))) ∧
    (∀ st d r rest u, isCanonical d = true →
      human_approval_node st (d :: r :: rest) = some u →
      ((u.approval_status = some "approved") ↔ pyLower (pyStrip d) = "yes") ∧
      ((u.approval_status = some "rejected") ↔ pyLower (pyStrip d) = "no") ∧
      u.agent_response.isSome = true) := by
  have skip : ∀ st pre rest, (∀ l ∈ pre, isCanonical l = false) →
      human_approval_node st (pre ++ rest) = human_approval_node st rest := by
    intro st pre rest h
    induction pre with
    | nil => rfl
    | cons l ls ih =>
      have hl : isCanonical l = false := h l (List.mem_cons_self l ls)
      simp only [List.cons_append, human_approval_node, hl, Bool.false_eq_true,
        if_false]
      exact ih (fun x hx => h x (List.mem_cons_of_mem l hx))
  have accept : ∀ st d r rest, isCanonical d = true →
      human_approval_node st (d :: r :: rest) =
        some (mkHumanUpdate st (pyLower (pyStrip d)) (pyStrip r)) := by
    intro st d r rest hd
    simp [human_approval_node, hd]
  refine ⟨?_, skip, accept, ?_⟩
  · intro st inputs h
    induction inputs with
    | nil => rfl
    | cons l ls ih =>
      have hl : isCanonical l = false := h l (List.mem_cons_self l ls)
      simp only [human_approval_node, hl, Bool.false_eq_true, if_false]
      exact ih (fun x hx => h x (List.mem_cons_of_mem l hx))
  · intro st d r rest u hd hu
    rw [accept st d r rest hd] at hu
    have hu2 : u = mkHumanUpdate st (pyLower (pyStrip d)) (pyStrip r) :=
      (Option.some_inj.mp hu).symm
    subst hu2
    have hcan : pyLower (pyStrip d) = "yes" ∨ pyLower (pyStrip d) = "no" := by
      simpa [isCanonical] using hd
    by_cases hy : pyLower (pyStrip d) = "yes"
    · simp [mkHumanUpdate, hy]
    · have hn : pyLower (pyStrip d) = "no" := hcan.resolve_left hy
      simp [mkHumanUpdate, hn]

/-- Witness for claim C5: a malformed line is skipped, then the decision
`YES` (stripped and lowered) is accepted with reason `family` and the
status is `approved`. -/
theorem human_gate_canonical_witness :
    human_approval_node emptyState (["maybe"] ++ ["YES", "family"]) =
      human_approval_node emptyState ["YES", "family"] ∧
    human_approval_node emptyState ["YES", "family"] =
      some (mkHumanUpdate emptyState "yes" "family") ∧
    (mkHumanUpdate emptyState "yes" "family").approval_status = some "approved" :=
  ⟨human_gate_canonical.2.1 emptyState ["maybe"] ["YES", "family"] (by decide),
   human_gate_canonical.2.2.1 emptyState "YES" "family" [] (by decide),
   rfl⟩

/-- Claim C6: when the Langflow query raises, `call_langflow_node`
returns a normal sparse update carrying the error string and the
generic apology; the run then continues to the routed destination, so
`finalize` always runs (it is the last executed node on both business
paths) and the final state carries a non-empty response.  The input
hypothesis supplies a canonical decision line so that a run routed
through the human gate is not left blocked awaiting input. -/
theorem langflow_failure_contained (st : AgentState) (e : String) (t : Int)
    (d r : String) (rest : List String)
    (hm : st.messages ≠ []) (hd : isCanonical d = true) :
    (call_langflow_node (Except.error e) st).error = some e ∧
    (call_langflow_node (Except.error e) st).agent_response = some apologyText ∧
    ∃ tr fin, runBusiness (Except.error e) t (d :: r :: rest) st = some (tr, fin) ∧
      tr.getLast? = some "finalize" ∧ fin.agent_response.getD "" ≠ "" := by
  have h1 : call_langflow_node (Except.error e) st =
      { error := some e, agent_response := some apologyText } := by
    cases hms : st.messages with
    | nil => exact absurd hms hm
    | cons m ms => simp [call_langflow_node, hms]
  refine ⟨by rw [h1], by rw [h1], ?_⟩
  by_cases hc : intTruthy st.days_requested = true ∧ st.days_requested.getD 0 > t
  · simp only [runBusiness, h1]
    rw [check_approval_pos t
      (applyUpdate st { agent_response := some apologyText, error := some e }) hc]
    have hcond : should_require_approval
        (applyUpdate
          (applyUpdate st { agent_response := some apologyText, error := some e })
          { requires_approval := some true, approval_status := some "pending" }) =
        "human_approval" := rfl
    rw [if_pos hcond]
    rw [human_accepts _ d r rest hd]
    refine ⟨_, _, rfl, rfl, ?_⟩
    apply finalize_response_nonempty
    exact human_response_nonempty _ _ _
  · simp only [runBusiness, h1]
    rw [check_approval_neg t
      (applyUpdate st { agent_response := some apologyText, error := some e }) hc]
    have hcond : ¬should_require_approval
        (applyUpdate
          (applyUpdate st { agent_response := some apologyText, error := some e })
          { requires_approval := some false, approval_status := some "auto_approved" }) =
        "human_approval" := by
      intro hcontra
      exact absurd (show "finalize" = "human_approval" from hcontra) (by decide)
    rw [if_neg hcond]
    refine ⟨_, _, rfl, rfl, ?_⟩
    apply finalize_response_nonempty
    exact (by decide : apologyText ≠ "")

/-- Witness for claim C6 at a concrete state and failure: the error and
apology updates are returned, the run ends in `finalize`, and the final
response is non-empty. -/
theorem langflow_failure_contained_witness :
    (call_langflow_node (Except.error "boom") oneMsgState).error = some "boom" ∧
    (call_langflow_node (Except.error "boom") oneMsgState).agent_response =
      some apologyText ∧
    ∃ tr fin, runBusiness (Except.error "boom") 5 ("yes" :: "" :: []) oneMsgState =
      some (tr, fin) ∧
      tr.getLast? = some "finalize" ∧ fin.agent_response.getD "" ≠ "" :=
  langflow_failure_contained oneMsgState "boom" 5 "yes" "" []
    (by decide) (by decide)

/-- Claim C1: with Alice as the acting principal and a message asking
for data about Bob, the entry router answers `denied` after writing the
access-denial response and the error marker; the run then executes only
the `finalize` node (neither `call_langflow` nor `check_approval` nor
`human_approval` appears in the trace, whatever the Langflow outcome,
threshold and console input would have been), and the final state keeps
the error field and carries the access-denial error response. -/
theorem privacy_denial_short_circuit (lf : Except String QueryResponse)
    (t : Int) (inputs : List String) :
    (check_privacy_access denialInit).1 = "denied" ∧
    (check_privacy_access denialInit).2.agent_response = some (deniedText "Bob") ∧
    (check_privacy_access denialInit).2.error = some "Unauthorized access attempt" ∧
    runGraph lf t inputs denialInit =
      some (["finalize"],
        { denialInit with
            agent_response := some (errorText "Unauthorized access attempt")
            error := some "Unauthorized access attempt" }) :=
  ⟨rfl, rfl, rfl, rfl⟩

end HRAgent
